import Mathlib

/-!
Shallow embedding of the MSP (Multi-Wii Serial Protocol) core of
python-msptools: checksum primitives (checksums.c), the frame decoder
state machine (get_sync / parse_V1 / parse_V2 / parse_packet), the frame
encoders (send_V1 / send_V2), the bounded-retry serial read
(msplink_read in serial.c), and the device-handle lifecycle invariant of
the module-level open/close/get/set entry points (msplink.c).

Bytes are modelled as `Nat` values below 256; 8-bit arithmetic is made
explicit with `% 256`.  The serial byte stream seen by the decoder is a
`List Nat`; a stream read of `n` bytes succeeds exactly when `n` bytes
are available (mirroring a successful `msplink_read`), and otherwise the
C code observes `MSP_RX_FAIL`.  Parsers return the result code, the
(partially) filled packet, and the bytes remaining in the stream.
-/

/-- Result codes, mirroring `enum MSP_ERRORS` in msplink.h.  `ok` is
`MSP_OK` (0); all other constructors are the negative error codes. -/
inductive MspRet where
  | ok
  | syscallFail
  | libInternalError
  | txFail
  | rxFail
  | rxSyncNotFound
  | rxChecksumMismatch
  | outOfMemory
  | rxClientNack
  deriving DecidableEq, Repr

/-- Received-packet record, mirroring `mspPacket_t` in parse.h.
`version` and `direction` are the raw header characters (77 = M, 88 = X,
60, 62, 33 = the direction characters). -/
structure MspPacket where
  version : Nat
  direction : Nat
  flag : Nat
  function : Nat
  payload_size : Nat
  payload : List Nat
  checksum : Nat
  deriving DecidableEq, Repr

/-- Zero-initialised packet, as the global `mspResponse` starts out. -/
def mspResponse0 : MspPacket := ⟨0, 0, 0, 0, 0, [], 0⟩

/-- XOR checksum of checksums.c: fold the bytes onto the seed with XOR.
Each step is reduced `% 256`, the width of the C `uint8_t` accumulator. -/
def checksum_xor (data : List Nat) (seed : Nat) : Nat :=
  data.foldl (fun c b => Nat.xor c b % 256) seed

/-- Lookup table `CRC8_DVB_S2_LUT` from checksums.c (polynomial 0xD5). -/
def CRC8_DVB_S2_LUT : List Nat := [
  0x00, 0xd5, 0x7f, 0xaa, 0xfe, 0x2b, 0x81, 0x54,
  0x29, 0xfc, 0x56, 0x83, 0xd7, 0x02, 0xa8, 0x7d,
  0x52, 0x87, 0x2d, 0xf8, 0xac, 0x79, 0xd3, 0x06,
  0x7b, 0xae, 0x04, 0xd1, 0x85, 0x50, 0xfa, 0x2f,
  0xa4, 0x71, 0xdb, 0x0e, 0x5a, 0x8f, 0x25, 0xf0,
  0x8d, 0x58, 0xf2, 0x27, 0x73, 0xa6, 0x0c, 0xd9,
  0xf6, 0x23, 0x89, 0x5c, 0x08, 0xdd, 0x77, 0xa2,
  0xdf, 0x0a, 0xa0, 0x75, 0x21, 0xf4, 0x5e, 0x8b,
  0x9d, 0x48, 0xe2, 0x37, 0x63, 0xb6, 0x1c, 0xc9,
  0xb4, 0x61, 0xcb, 0x1e, 0x4a, 0x9f, 0x35, 0xe0,
  0xcf, 0x1a, 0xb0, 0x65, 0x31, 0xe4, 0x4e, 0x9b,
  0xe6, 0x33, 0x99, 0x4c, 0x18, 0xcd, 0x67, 0xb2,
  0x39, 0xec, 0x46, 0x93, 0xc7, 0x12, 0xb8, 0x6d,
  0x10, 0xc5, 0x6f, 0xba, 0xee, 0x3b, 0x91, 0x44,
  0x6b, 0xbe, 0x14, 0xc1, 0x95, 0x40, 0xea, 0x3f,
  0x42, 0x97, 0x3d, 0xe8, 0xbc, 0x69, 0xc3, 0x16,
  0xef, 0x3a, 0x90, 0x45, 0x11, 0xc4, 0x6e, 0xbb,
  0xc6, 0x13, 0xb9, 0x6c, 0x38, 0xed, 0x47, 0x92,
  0xbd, 0x68, 0xc2, 0x17, 0x43, 0x96, 0x3c, 0xe9,
  0x94, 0x41, 0xeb, 0x3e, 0x6a, 0xbf, 0x15, 0xc0,
  0x4b, 0x9e, 0x34, 0xe1, 0xb5, 0x60, 0xca, 0x1f,
  0x62, 0xb7, 0x1d, 0xc8, 0x9c, 0x49, 0xe3, 0x36,
  0x19, 0xcc, 0x66, 0xb3, 0xe7, 0x32, 0x98, 0x4d,
  0x30, 0xe5, 0x4f, 0x9a, 0xce, 0x1b, 0xb1, 0x64,
  0x72, 0xa7, 0x0d, 0xd8, 0x8c, 0x59, 0xf3, 0x26,
  0x5b, 0x8e, 0x24, 0xf1, 0xa5, 0x70, 0xda, 0x0f,
  0x20, 0xf5, 0x5f, 0x8a, 0xde, 0x0b, 0xa1, 0x74,
  0x09, 0xdc, 0x76, 0xa3, 0xf7, 0x22, 0x88, 0x5d,
  0xd6, 0x03, 0xa9, 0x7c, 0x28, 0xfd, 0x57, 0x82,
  0xff, 0x2a, 0x80, 0x55, 0x01, 0xd4, 0x7e, 0xab,
  0x84, 0x51, 0xfb, 0x2e, 0x7a, 0xaf, 0x05, 0xd0,
  0xad, 0x78, 0xd2, 0x07, 0x53, 0x86, 0x2c, 0xf9]

/-- One step of the table-driven CRC: `crc = LUT[crc ^ byte]`. -/
def crc8_step (crc b : Nat) : Nat :=
  CRC8_DVB_S2_LUT.getD (Nat.xor crc b % 256) 0

/-- CRC8/DVB-S2 of checksums.c: `while (pos < end) crc = LUT[crc ^ *pos++]`. -/
def checksum_crc8_dvb_s2 (data : List Nat) (crc : Nat) : Nat :=
  data.foldl crc8_step crc

/-- Receive buffer capacity, `READ_BUFFER_SIZE` in msplink.h. -/
def READ_BUFFER_SIZE : Nat := 1024

/-- Stream-level model of a `msplink_read(mdev, buf, n)` call made by the
decoder: it succeeds, delivering `n` bytes and the remaining stream,
exactly when `n` bytes are available; otherwise the C call returns
`MSP_RX_FAIL` (modelled as `none`). -/
def mread (n : Nat) (s : List Nat) : Option (List Nat × List Nat) :=
  if n ≤ s.length then some (s.take n, s.drop n) else none

/-- Sync search loop body of `get_sync` in parse.c, with the remaining
iteration count of the `for (i=0; i<MAX_SYNC_SEARCH_BYTES; i++)` loop as
fuel: read one byte at a time; a read failure or running out of fuel
yields `MSP_RX_SYNC_NOT_FOUND`; byte 36 (the sync character) yields
`MSP_OK` with the rest of the stream. -/
def get_sync_fuel : Nat → List Nat → MspRet × List Nat
  | 0, s => (MspRet.rxSyncNotFound, s)
  | n + 1, s =>
    match mread 1 s with
    | none => (MspRet.rxSyncNotFound, s)
    | some (b, s1) => if b.getD 0 0 = 36 then (MspRet.ok, s1) else get_sync_fuel n s1

/-- The constant `MAX_SYNC_SEARCH_BYTES` of parse.c. -/
def MAX_SYNC_SEARCH_BYTES : Nat := 50

/-- The function `get_sync` of parse.c. -/
def get_sync (s : List Nat) : MspRet × List Nat :=
  get_sync_fuel MAX_SYNC_SEARCH_BYTES s

/-- The function `parse_V2` of parse.c.  At entry the sync, version and
direction bytes are consumed.  Reads 5 header bytes {flag, function LE,
payload_size LE}, seeds the CRC with them, rejects payloads larger than
`READ_BUFFER_SIZE - 1`, reads payload plus checksum byte, chains the CRC
over the payload and compares with the received checksum.  The packet's
`version` and `direction` fields are never written here. -/
def parse_V2 (pkt0 : MspPacket) (s : List Nat) : MspRet × MspPacket × List Nat :=
  match mread 5 s with
  | none => (MspRet.rxFail, pkt0, s)
  | some (hdr, s1) =>
    let ck0 := checksum_crc8_dvb_s2 hdr 0
    let pkt1 : MspPacket :=
      { pkt0 with flag := hdr.getD 0 0,
                  function := hdr.getD 1 0 + 256 * hdr.getD 2 0,
                  payload_size := hdr.getD 3 0 + 256 * hdr.getD 4 0 }
    if pkt1.payload_size > READ_BUFFER_SIZE - 1 then (MspRet.outOfMemory, pkt1, s1)
    else
      match mread (pkt1.payload_size + 1) s1 with
      | none => (MspRet.rxFail, pkt1, s1)
      | some (body, s2) =>
        let pay := body.take pkt1.payload_size
        let rxck := body.getD pkt1.payload_size 0
        let pkt2 : MspPacket := { pkt1 with payload := pay, checksum := rxck }
        if rxck ≠ checksum_crc8_dvb_s2 pay ck0 then (MspRet.rxChecksumMismatch, pkt2, s2)
        else (MspRet.ok, pkt2, s2)

/-- The function `parse_V1` of parse.c.  Reads size and command bytes and
seeds the XOR checksum with them.  Size byte 255 marks a JUMBO packet:
two further little-endian length bytes are read, chained into the
checksum, and replace the payload size.  Command byte 255 marks a V2
packet encapsulated in this V1 frame: control transfers to `parse_V2` on
the same stream (in the C code negative results propagate and 0 maps to
`MSP_OK`, which is the identity on `parse_V2`'s result codes).
Otherwise the payload plus one checksum byte are read and the XOR
checksum is compared. -/
def parse_V1 (pkt0 : MspPacket) (s : List Nat) : MspRet × MspPacket × List Nat :=
  match mread 2 s with
  | none => (MspRet.rxFail, { pkt0 with flag := 0 }, s)
  | some (hdr, s1) =>
    let ck0 := checksum_xor hdr 0
    let pkt1 : MspPacket :=
      { pkt0 with flag := 0, payload_size := hdr.getD 0 0, function := hdr.getD 1 0 }
    match (if pkt1.payload_size = 255 then
            match mread 2 s1 with
            | none => none
            | some (lb, s2) =>
              some (checksum_xor lb ck0,
                    { pkt1 with payload_size := lb.getD 0 0 + 256 * lb.getD 1 0 }, s2)
          else some (ck0, pkt1, s1)) with
    | none => (MspRet.rxFail, pkt1, s1)
    | some (ck1, pkt2, s2) =>
      if pkt2.function = 255 then parse_V2 pkt2 s2
      else if pkt2.payload_size > READ_BUFFER_SIZE - 1 then (MspRet.outOfMemory, pkt2, s2)
      else
        match mread (pkt2.payload_size + 1) s2 with
        | none => (MspRet.rxFail, pkt2, s2)
        | some (body, s3) =>
          let pay := body.take pkt2.payload_size
          let rxck := body.getD pkt2.payload_size 0
          let pkt3 : MspPacket := { pkt2 with payload := pay, checksum := rxck }
          if rxck ≠ checksum_xor pay ck1 then (MspRet.rxChecksumMismatch, pkt3, s3)
          else (MspRet.ok, pkt3, s3)

/-- Final step of `parse_packet` in parse.c: a negative code from the
version dispatch is returned as is (`if (ret<0) return ret`); a
successful parse whose stored direction byte is 33 (`MSP_DIR_ERROR`)
becomes `MSP_RX_CLIENT_NACK`, and any other success is `MSP_OK`. -/
def nack_map (r : MspRet × MspPacket × List Nat) : MspRet × MspPacket × List Nat :=
  match r with
  | (MspRet.ok, pkt2, s3) =>
    if pkt2.direction = 33 then (MspRet.rxClientNack, pkt2, s3)
    else (MspRet.ok, pkt2, s3)
  | (e, pkt2, s3) => (e, pkt2, s3)

/-- The function `parse_packet` of parse.c (`msplink_waituntilsent` has
no effect on the byte stream and is elided).  Finds the sync byte, reads
version (77 = `MSP_V1`, 88 = `MSP_V2`) and direction bytes, dispatches on
the version (the unknown-version branch is `MSP_LIB_INTERNAL_ERROR`),
and finally applies the NACK mapping `nack_map`. -/
def parse_packet (pkt0 : MspPacket) (s : List Nat) : MspRet × MspPacket × List Nat :=
  match get_sync s with
  | (MspRet.ok, s1) =>
    (match mread 2 s1 with
    | none => (MspRet.rxFail, pkt0, s1)
    | some (hb, s2) =>
      let pkt1 : MspPacket := { pkt0 with version := hb.getD 0 0, direction := hb.getD 1 0 }
      nack_map (if pkt1.version = 77 then parse_V1 pkt1 s2
                else if pkt1.version = 88 then parse_V2 pkt1 s2
                else (MspRet.libInternalError, pkt1, s2)))
  | (e, _) => (e, pkt0, s)

/-- The function `send_V1` of send.c, as the byte sequence written to the
serial port.  `cmd` is the `uint8_t` command; the size byte is
`min(len, 254)` with 255 marking JUMBO, in which case the true 16-bit
length follows little-endian.  The checksum accumulator is a `uint8_t`
seeded with `payload_len ^ cmd` (note: the *low byte of the true
length*, not the emitted size byte), then XORed with the JUMBO length
bytes when present and with the payload. -/
def send_V1 (cmd : Nat) (payload : List Nat) : List Nat :=
  let payload_len := payload.length
  let sizeByte := if payload_len > 254 then 255 else payload_len
  let lenBytes := if payload_len > 254 then [payload_len % 256, payload_len / 256 % 256] else []
  let ck0 := Nat.xor payload_len cmd % 256
  let ck := checksum_xor payload (checksum_xor lenBytes ck0)
  [36, 77, 60, sizeByte, cmd] ++ lenBytes ++ payload ++ [ck]

/-- The function `send_V2` of send.c: preamble, then flag, command LE,
payload length LE, payload, and a CRC8/DVB-S2 over the five header bytes
chained across the payload. -/
def send_V2 (flag cmd : Nat) (payload : List Nat) : List Nat :=
  let hdr := [flag, cmd % 256, cmd / 256 % 256,
              payload.length % 256, payload.length / 256 % 256]
  let ck := checksum_crc8_dvb_s2 payload (checksum_crc8_dvb_s2 hdr 0)
  [36, 88, 60] ++ hdr ++ payload ++ [ck]

/-- Five header bytes of a well-formed V2 frame body for the given flag,
command and payload length: {flag, command LE, length LE}, exactly the
layout `parse_V2` reads and `send_V2` emits after the 3-byte preamble. -/
def v2hdr5 (flag cmd len : Nat) : List Nat :=
  [flag, cmd % 256, cmd / 256 % 256, len % 256, len / 256 % 256]

/-- Wire bytes of a well-formed V2 frame body (everything after the
3-byte preamble): header, payload, and the CRC the receiver will
recompute. -/
def mkV2Inner (flag cmd : Nat) (payload : List Nat) : List Nat :=
  v2hdr5 flag cmd payload.length ++ payload ++
    [checksum_crc8_dvb_s2 payload (checksum_crc8_dvb_s2 (v2hdr5 flag cmd payload.length) 0)]

/-- Loop of `msplink_read` in serial.c over an oracle of OS read
outcomes: at each of the `read_retries` iterations a `read` is issued
(delivering at most the remaining requested count, `oracle` head, 0 once
exhausted), then — before the freshly read count is subtracted — the
function returns success if the remaining count has already reached
zero.  Exhausting the iterations returns `MSP_RX_FAIL`. -/
def msplink_read_loop : Nat → Nat → List Nat → MspRet
  | 0, _, _ => MspRet.rxFail
  | k + 1, remaining, oracle =>
    if remaining = 0 then MspRet.ok
    else msplink_read_loop k (remaining - min (oracle.headD 0) remaining) oracle.tail

/-- The function `msplink_read` of serial.c for a device configured with
`retries` read retries, requesting `len` bytes, where `oracle` lists the
byte counts successive OS `read` calls would deliver (no syscall
errors). -/
def msplink_read (retries len : Nat) (oracle : List Nat) : MspRet :=
  msplink_read_loop retries len oracle

/-- Device-handle fields of `mspdev_t` relevant to the lifecycle
invariant of msplink.c: the open flag and the caller-configurable
version and retry count (C `int`s, so `Int` here). -/
structure MspDev where
  device_open : Bool
  mspversion : Int
  read_retries : Int
  deriving DecidableEq, Repr

/-- Device state established by `PyInit_msplink`: closed, version 1,
`MSP_RETRY_DEFAULT` (3) retries. -/
def initDev : MspDev := ⟨false, 1, 3⟩

/-- The handle invariant: while the device is open, the configured
version is 1 or 2 and the retry count is positive. -/
def devInv (d : MspDev) : Prop :=
  d.device_open = true → (d.mspversion = 1 ∨ d.mspversion = 2) ∧ 1 ≤ d.read_retries

/-- State effect of `pyMsplinkOpen` on the modelled fields.  A second
open is rejected up front.  Otherwise argument parsing writes the
supplied keyword values straight into the device struct (`none` = the
keyword was omitted and the stored field is left as is), after which the
version must be 1 or 2 and the retry count positive, and the transport
open (`osOk`) must succeed, before `device_open` is set.  Every rejected
path leaves `device_open` untouched (false). -/
def pyMsplinkOpen (d : MspDev) (retries version : Option Int) (osOk : Bool) : MspDev :=
  if d.device_open then d
  else
    let d1 : MspDev := { d with read_retries := retries.getD d.read_retries,
                                mspversion := version.getD d.mspversion }
    if d1.mspversion ≠ 1 ∧ d1.mspversion ≠ 2 then d1
    else if d1.read_retries ≤ 0 then d1
    else if osOk then { d1 with device_open := true } else d1

/-- State effect of `pyMsplinkClose` on the modelled fields: the open
flag is cleared on every path. -/
def pyMsplinkClose (d : MspDev) : MspDev :=
  { d with device_open := false }

/-- Which branch the version dispatch of `pyMsplinkGet` / `pyMsplinkSet`
takes: both functions first require the device to be open and then
switch on `mspDevice.mspversion`, whose `default` branch reports an
internal msplink bug. -/
inductive DispatchPath where
  | notOpen
  | v1Path
  | v2Path
  | internalBug
  deriving DecidableEq, Repr

/-- Control-flow skeleton of `pyMsplinkGet` in msplink.c restricted to
the modelled device fields: the handle is not modified, and the taken
branch is determined by the open flag and the stored version. -/
def pyMsplinkGet (d : MspDev) : MspDev × DispatchPath :=
  (d, if ¬d.device_open then DispatchPath.notOpen
      else if d.mspversion = 1 then DispatchPath.v1Path
      else if d.mspversion = 2 then DispatchPath.v2Path
      else DispatchPath.internalBug)

/-- Control-flow skeleton of `pyMsplinkSet` in msplink.c restricted to
the modelled device fields (the command-range and payload checks touch
only locals): the handle is not modified, and the taken branch is
determined by the open flag and the stored version. -/
def pyMsplinkSet (d : MspDev) : MspDev × DispatchPath :=
  (d, if ¬d.device_open then DispatchPath.notOpen
      else if d.mspversion = 1 then DispatchPath.v1Path
      else if d.mspversion = 2 then DispatchPath.v2Path
      else DispatchPath.internalBug)

/-! ### Helper lemmas -/

theorem getD_append_cons (l r : List Nat) (c d : Nat) :
    (l ++ c :: r).getD l.length d = c := by
  induction l with
  | nil => rfl
  | cons a t ih => simpa [List.getD] using ih

theorem mread_exact (l r : List Nat) : mread l.length (l ++ r) = some (l, r) := by
  simp [mread, List.take_left, List.drop_left]

theorem mread_succ (l : List Nat) (c : Nat) (r : List Nat) :
    mread (l.length + 1) (l ++ c :: r) = some (l ++ [c], r) := by
  have h1 : (l ++ c :: r).take (l.length + 1) = l ++ (c :: r).take 1 := List.take_append 1
  have h2 : (l ++ c :: r).drop (l.length + 1) = (c :: r).drop 1 := List.drop_append 1
  simp [mread, h1, h2]

/-! ### Claim theorems -/

/-- Claim C8: for all byte lists `a`, `b` and every 8-bit seed `s`, both
checksum primitives satisfy `checksum (a ++ b) s = checksum b (checksum a s)`:
the value on a fixed input is independent of how the input is chunked
through the seed. -/
theorem c8_checksum_chaining (a b : List Nat) (s : Nat) (_hs : s < 256) :
    checksum_xor (a ++ b) s = checksum_xor b (checksum_xor a s) ∧
    checksum_crc8_dvb_s2 (a ++ b) s = checksum_crc8_dvb_s2 b (checksum_crc8_dvb_s2 a s) := by
  exact ⟨List.foldl_append _ _ a b, List.foldl_append _ _ a b⟩

/-- Witness for C8 at `a = [1, 2]`, `b = [3]`, `s = 5`. -/
theorem c8_checksum_chaining_witness :
    checksum_xor ([1, 2] ++ [3]) 5 = checksum_xor [3] (checksum_xor [1, 2] 5) ∧
    checksum_crc8_dvb_s2 ([1, 2] ++ [3]) 5 =
      checksum_crc8_dvb_s2 [3] (checksum_crc8_dvb_s2 [1, 2] 5) :=
  c8_checksum_chaining [1, 2] [3] 5 (by decide)

set_option maxRecDepth 4000 in
/-- Claim C1 (code bug): feeding `send_V1`'s own output for command 1 and
a 300-byte payload back into the packet parser does not round-trip: the
parser rejects it with `MSP_RX_CHECKSUM_MISMATCH`, because `send_V1`
seeds its XOR with the low byte of the true length (44) where the parser
uses the emitted size byte (255). -/
theorem c1_roundtrip_fails_on_jumbo :
    (parse_packet mspResponse0 (send_V1 1 (List.replicate 300 0))).1 =
      MspRet.rxChecksumMismatch := by
  decide

/-- Claim C2 (code bug): with `read_retries = 1` and the OS delivering
the single requested byte on the very first read call, `msplink_read`
still returns `MSP_RX_FAIL`, because the completion test runs before the
freshly read count is subtracted; one extra retry makes the same
scenario succeed. -/
theorem c2_read_retry_off_by_one :
    msplink_read 1 1 [1] = MspRet.rxFail ∧ msplink_read 2 1 [1] = MspRet.ok := by
  decide

set_option maxRecDepth 4000 in
/-- Claim C3 (code bug): encoding command 1 with a 300-byte zero payload
does emit size byte 255 and length bytes 44, 1 as claimed, but the
trailing checksum byte is 0, not the claimed XOR over the emitted size
byte, command, length bytes and payload, which is 211. -/
theorem c3_jumbo_checksum_wrong :
    (send_V1 1 (List.replicate 300 0)).getD 3 0 = 255 ∧
    (send_V1 1 (List.replicate 300 0)).getD 4 0 = 1 ∧
    (send_V1 1 (List.replicate 300 0)).getD 5 0 = 44 ∧
    (send_V1 1 (List.replicate 300 0)).getD 6 0 = 1 ∧
    (send_V1 1 (List.replicate 300 0)).getLast? = some 0 ∧
    checksum_xor (255 :: 1 :: 44 :: 1 :: List.replicate 300 0) 0 = 211 := by
  decide

theorem parse_V2_wellformed (pkt : MspPacket) (flag cmd : Nat) (payload rest : List Nat)
    (hlen : payload.length ≤ 1023) (hcmd : cmd < 65536) :
    parse_V2 pkt (mkV2Inner flag cmd payload ++ rest) =
      (MspRet.ok,
       { pkt with flag := flag, function := cmd, payload_size := payload.length,
                  payload := payload,
                  checksum := checksum_crc8_dvb_s2 payload
                    (checksum_crc8_dvb_s2 (v2hdr5 flag cmd payload.length) 0) },
       rest) := by
  set ck : Nat := checksum_crc8_dvb_s2 payload
    (checksum_crc8_dvb_s2 (v2hdr5 flag cmd payload.length) 0) with hck
  have hstream : mkV2Inner flag cmd payload ++ rest =
      v2hdr5 flag cmd payload.length ++ (payload ++ (ck :: rest)) := by
    simp [mkV2Inner]
  have h5 : mread 5 (v2hdr5 flag cmd payload.length ++ (payload ++ (ck :: rest))) =
      some (v2hdr5 flag cmd payload.length, payload ++ (ck :: rest)) := by
    have h := mread_exact (v2hdr5 flag cmd payload.length) (payload ++ (ck :: rest))
    rwa [show (v2hdr5 flag cmd payload.length).length = 5 from rfl] at h
  have hbody : mread (payload.length + 1) (payload ++ (ck :: rest)) =
      some (payload ++ [ck], rest) := mread_succ _ _ _
  have hfn : cmd % 256 + 256 * (cmd / 256 % 256) = cmd := by omega
  have hps : payload.length % 256 + 256 * (payload.length / 256 % 256) = payload.length := by
    omega
  have htake : (payload ++ [ck]).take payload.length = payload := List.take_left _ _
  have hgetD : (payload ++ [ck]).getD payload.length 0 = ck := getD_append_cons _ _ _ _
  rw [hstream]
  unfold parse_V2
  rw [h5]
  simp only [v2hdr5, List.getD_cons_zero, List.getD_cons_succ, hfn, hps, READ_BUFFER_SIZE]
  rw [if_neg (by omega)]
  rw [hbody]
  simp only [htake, hgetD]
  rw [if_neg (by simp [hck, v2hdr5])]

theorem parse_V1_tunnel (pkt0 : MspPacket) (sz flag cmd : Nat) (payload : List Nat)
    (t : Nat) (g : List Nat) (hsz : sz ≠ 255) (hlen : payload.length ≤ 1023)
    (hcmd : cmd < 65536) :
    parse_V1 pkt0 (sz :: 255 :: (mkV2Inner flag cmd payload ++ t :: g)) =
      (MspRet.ok,
       { pkt0 with flag := flag, function := cmd, payload_size := payload.length,
                   payload := payload,
                   checksum := checksum_crc8_dvb_s2 payload
                     (checksum_crc8_dvb_s2 (v2hdr5 flag cmd payload.length) 0) },
       t :: g) := by
  unfold parse_V1
  rw [show mread 2 (sz :: 255 :: (mkV2Inner flag cmd payload ++ t :: g)) =
      some ([sz, 255], mkV2Inner flag cmd payload ++ t :: g) by simp [mread]]
  simp only [List.getD_cons_zero, List.getD_cons_succ]
  rw [if_neg hsz]
  dsimp only
  rw [if_pos rfl]
  rw [parse_V2_wellformed _ flag cmd payload (t :: g) hlen hcmd]

/-- Counterexample for C4: on the concrete tunneled stream
24 4D 3E 0A FF + well-formed V2 body + the V1 trailing checksum byte
171, the parse succeeds, yet byte 171 is still in the remaining stream:
contrary to the claim, the V1 wrapper's checksum byte is never read. -/
theorem c4_checksum_byte_left_cex :
    (parse_packet mspResponse0 ([36, 77, 62, 10, 255] ++ mkV2Inner 0 100 [] ++ [171])).1 =
      MspRet.ok ∧
    (parse_packet mspResponse0 ([36, 77, 62, 10, 255] ++ mkV2Inner 0 100 [] ++ [171])).2.2 =
      [171] := by
  decide

/-- Claim C4 (amended): when a parsed V1 header carries command byte 255,
the parser immediately parses a V2 packet from the same stream without
validating the V1 XOR checksum, and the V1 wrapper's trailing checksum
byte is neither validated nor consumed: for any well-formed inner V2
frame and ANY byte `t` in the V1 checksum position, the parse succeeds
and the remaining stream still starts with `t`. -/
theorem c4_tunnel_checksum (pkt0 : MspPacket) (sz flag cmd : Nat) (payload : List Nat)
    (t : Nat) (g : List Nat) (hsz : sz ≠ 255) (hlen : payload.length ≤ 1023)
    (hcmd : cmd < 65536) :
    parse_V1 pkt0 (sz :: 255 :: (mkV2Inner flag cmd payload ++ t :: g)) =
      (MspRet.ok,
       { pkt0 with flag := flag, function := cmd, payload_size := payload.length,
                   payload := payload,
                   checksum := checksum_crc8_dvb_s2 payload
                     (checksum_crc8_dvb_s2 (v2hdr5 flag cmd payload.length) 0) },
       t :: g) :=
  parse_V1_tunnel pkt0 sz flag cmd payload t g hsz hlen hcmd

/-- Witness for C4 at size byte 10, flag 0, command 100, empty payload,
checksum-position byte 171. -/
theorem c4_tunnel_checksum_witness :
    parse_V1 mspResponse0 (10 :: 255 :: (mkV2Inner 0 100 [] ++ 171 :: [])) =
      (MspRet.ok,
       { mspResponse0 with flag := 0, function := 100, payload_size := 0,
                           payload := [],
                           checksum := checksum_crc8_dvb_s2 []
                             (checksum_crc8_dvb_s2 (v2hdr5 0 100 0) 0) },
       [171]) :=
  c4_tunnel_checksum mspResponse0 10 0 100 [] 171 [] (by decide) (by decide) (by decide)

theorem get_sync_fuel_found (m : Nat) (s : List Nat) :
    get_sync_fuel (m + 1) (36 :: s) = (MspRet.ok, s) := by
  simp [get_sync_fuel, mread]

theorem get_sync_fuel_skip (junk : List Nat) :
    ∀ (n : Nat) (s : List Nat), (∀ b ∈ junk, b ≠ 36) → junk.length ≤ n →
    get_sync_fuel n (junk ++ s) = get_sync_fuel (n - junk.length) s := by
  induction junk with
  | nil => intro n s _ _; simp
  | cons a t ih =>
    intro n s hj hn
    cases n with
    | zero => simp at hn
    | succ m =>
      have ha : a ≠ 36 := hj a (by simp)
      have h1 : mread 1 (a :: (t ++ s)) = some ([a], t ++ s) := by simp [mread]
      show get_sync_fuel (m + 1) (a :: (t ++ s)) = _
      rw [get_sync_fuel, h1]
      dsimp only [List.getD_cons_zero]
      rw [if_neg ha]
      have ht : t.length ≤ m := by simpa using hn
      rw [ih m s (fun b hb => hj b (by simp [hb])) ht]
      congr 1
      simp only [List.length_cons]
      omega

theorem get_sync_fuel_exhaust (n : Nat) :
    ∀ (junk s : List Nat), (∀ b ∈ junk, b ≠ 36) → n ≤ junk.length →
    (get_sync_fuel n (junk ++ s)).1 = MspRet.rxSyncNotFound := by
  induction n with
  | zero => intro junk s _ _; rfl
  | succ m ih =>
    intro junk s hj hn
    cases junk with
    | nil => simp at hn
    | cons a t =>
      have ha : a ≠ 36 := hj a (by simp)
      have h1 : mread 1 (a :: (t ++ s)) = some ([a], t ++ s) := by simp [mread]
      show (get_sync_fuel (m + 1) (a :: (t ++ s))).1 = _
      rw [get_sync_fuel, h1]
      dsimp only [List.getD_cons_zero]
      rw [if_neg ha]
      exact ih t s (fun b hb => hj b (by simp [hb])) (by simpa using hn)

/-- Claim C5: sync robustness of the decoder.  Any run of non-sync bytes
of length at most 49 in front of a frame is transparently skipped (the
parse result is exactly that of the frame alone), while a run of 50
non-sync bytes makes the whole parse fail with
`MSP_RX_SYNC_NOT_FOUND`. -/
theorem c5_sync_robustness (pkt0 : MspPacket) (rest junk : List Nat)
    (hj : ∀ b ∈ junk, b ≠ 36) :
    (junk.length ≤ 49 →
      parse_packet pkt0 (junk ++ 36 :: rest) = parse_packet pkt0 (36 :: rest)) ∧
    (50 ≤ junk.length → (parse_packet pkt0 (junk ++ rest)).1 = MspRet.rxSyncNotFound) := by
  constructor
  · intro hk
    have h1 : get_sync (junk ++ 36 :: rest) = (MspRet.ok, rest) := by
      rw [get_sync, MAX_SYNC_SEARCH_BYTES, get_sync_fuel_skip junk 50 _ hj (by omega)]
      obtain ⟨m, hm⟩ : ∃ m, 50 - junk.length = m + 1 := ⟨49 - junk.length, by omega⟩
      rw [hm, get_sync_fuel_found]
    have h2 : get_sync (36 :: rest) = (MspRet.ok, rest) := get_sync_fuel_found 49 rest
    unfold parse_packet
    rw [h1, h2]
  · intro hk
    have h1 : (get_sync (junk ++ rest)).1 = MspRet.rxSyncNotFound :=
      get_sync_fuel_exhaust 50 junk rest hj (by omega)
    have h2 : get_sync (junk ++ rest) =
        (MspRet.rxSyncNotFound, (get_sync (junk ++ rest)).2) := by
      rw [← h1]
    unfold parse_packet
    rw [h2]

/-- Witness for C5: three junk bytes before a minimal frame are skipped,
and 50 junk bytes produce sync-not-found. -/
theorem c5_sync_robustness_witness :
    parse_packet mspResponse0 ([1, 2, 3] ++ 36 :: [77, 33, 0, 108, 108]) =
      parse_packet mspResponse0 (36 :: [77, 33, 0, 108, 108]) ∧
    (parse_packet mspResponse0 (List.replicate 50 1 ++ [36, 77, 33, 0, 108, 108])).1 =
      MspRet.rxSyncNotFound :=
  ⟨(c5_sync_robustness mspResponse0 [77, 33, 0, 108, 108] [1, 2, 3] (by decide)).1 (by decide),
   (c5_sync_robustness mspResponse0 [36, 77, 33, 0, 108, 108] (List.replicate 50 1)
      (by decide)).2 (by decide)⟩

theorem parse_V2_no_nack (pkt : MspPacket) (s : List Nat) :
    (parse_V2 pkt s).1 ≠ MspRet.rxClientNack := by
  unfold parse_V2
  dsimp only
  intro h
  repeat' split at h
  all_goals simp at h

theorem parse_V1_no_nack (pkt : MspPacket) (s : List Nat) :
    (parse_V1 pkt s).1 ≠ MspRet.rxClientNack := by
  unfold parse_V1
  dsimp only
  intro h
  repeat' split at h
  all_goals first
    | exact parse_V2_no_nack _ _ h
    | simp at h

theorem get_sync_codes (s : List Nat) :
    (get_sync s).1 = MspRet.ok ∨ (get_sync s).1 = MspRet.rxSyncNotFound := by
  rw [get_sync]
  generalize MAX_SYNC_SEARCH_BYTES = n
  induction n generalizing s with
  | zero => right; rfl
  | succ m ih =>
    rw [get_sync_fuel]
    cases hm : mread 1 s with
    | none => right; rfl
    | some p =>
      obtain ⟨b, s1⟩ := p
      dsimp only
      by_cases hb : b.getD 0 0 = 36
      · rw [if_pos hb]; left; rfl
      · rw [if_neg hb]; exact ih s1

theorem nack_map_spec (r : MspRet × MspPacket × List Nat)
    (hr : r.1 ≠ MspRet.rxClientNack) :
    ((nack_map r).1 = MspRet.ok ∨ (nack_map r).1 = MspRet.rxClientNack) →
      ((nack_map r).1 = MspRet.rxClientNack ↔ (nack_map r).2.1.direction = 33) := by
  rcases r with ⟨c, p, l⟩
  cases c <;> first
    | exact absurd rfl hr
    | by_cases hd : p.direction = 33 <;> simp [nack_map, hd]

/-- Claim C7: whenever the overall parse ends in success or NACK (header
recognized and checksum valid), the result is NACK exactly when the
stored direction byte is 33, with the decoded packet carried alongside
the code in both cases; concretely, the bytes 24 4D 21 00 6C 6C decode
to a V1 packet surfacing as NACK with the record attached. -/
theorem c7_nack_surfacing (pkt0 : MspPacket) (s : List Nat) :
    (((parse_packet pkt0 s).1 = MspRet.ok ∨ (parse_packet pkt0 s).1 = MspRet.rxClientNack) →
      ((parse_packet pkt0 s).1 = MspRet.rxClientNack ↔
        (parse_packet pkt0 s).2.1.direction = 33)) ∧
    parse_packet mspResponse0 [36, 77, 33, 0, 108, 108] =
      (MspRet.rxClientNack, ⟨77, 33, 0, 108, 0, [], 108⟩, []) := by
  refine ⟨?_, by decide⟩
  have hcodes := get_sync_codes s
  unfold parse_packet
  rcases hgs : get_sync s with ⟨c, s1⟩
  rw [hgs] at hcodes
  cases c with
  | ok =>
    dsimp only
    cases hm : mread 2 s1 with
    | none => intro h; rcases h with h | h <;> exact absurd h (by simp)
    | some p =>
      obtain ⟨hb, s2⟩ := p
      dsimp only
      apply nack_map_spec
      split
      · exact parse_V1_no_nack _ _
      · split
        · exact parse_V2_no_nack _ _
        · simp
  | rxSyncNotFound => intro h; rcases h with h | h <;> exact absurd h (by simp)
  | syscallFail => exact absurd hcodes (by simp)
  | libInternalError => exact absurd hcodes (by simp)
  | txFail => exact absurd hcodes (by simp)
  | rxFail => exact absurd hcodes (by simp)
  | rxChecksumMismatch => exact absurd hcodes (by simp)
  | outOfMemory => exact absurd hcodes (by simp)
  | rxClientNack => exact absurd hcodes (by simp)

/-- Witness for C7 at the concrete NACK bytes of the claim. -/
theorem c7_nack_surfacing_witness :
    (parse_packet mspResponse0 [36, 77, 33, 0, 108, 108]).1 = MspRet.rxClientNack ↔
      (parse_packet mspResponse0 [36, 77, 33, 0, 108, 108]).2.1.direction = 33 :=
  (c7_nack_surfacing mspResponse0 [36, 77, 33, 0, 108, 108]).1 (Or.inr (by decide))

/-- Claim C6: JUMBO and buffer boundaries.  On encode, payloads up to
254 bytes use a literal size byte and no length bytes (frame length
`len + 6`), while payloads of 255 or more use size byte 255 plus two
length bytes (frame length `len + 8`).  On decode, a declared payload
size up to 1023 never yields the buffer-too-small error, and one of 1024
or more always does, in both the V2 and the V1 JUMBO body paths. -/
theorem c6_jumbo_boundary :
    (∀ (cmd : Nat) (payload : List Nat), payload.length ≤ 254 →
      (send_V1 cmd payload).getD 3 0 = payload.length ∧
      (send_V1 cmd payload).length = payload.length + 6) ∧
    (∀ (cmd : Nat) (payload : List Nat), 255 ≤ payload.length → payload.length ≤ 65535 →
      (send_V1 cmd payload).getD 3 0 = 255 ∧
      (send_V1 cmd payload).length = payload.length + 8) ∧
    (∀ (pkt : MspPacket) (f c0 c1 L : Nat) (s : List Nat), L ≤ 1023 →
      (parse_V2 pkt (f :: c0 :: c1 :: L % 256 :: L / 256 :: s)).1 ≠ MspRet.outOfMemory) ∧
    (∀ (pkt : MspPacket) (f c0 c1 L : Nat) (s : List Nat), 1024 ≤ L → L ≤ 65535 →
      (parse_V2 pkt (f :: c0 :: c1 :: L % 256 :: L / 256 :: s)).1 = MspRet.outOfMemory) ∧
    (∀ (pkt : MspPacket) (cmd L : Nat) (s : List Nat), cmd ≠ 255 → L ≤ 1023 →
      (parse_V1 pkt (255 :: cmd :: L % 256 :: L / 256 :: s)).1 ≠ MspRet.outOfMemory) ∧
    (∀ (pkt : MspPacket) (cmd L : Nat) (s : List Nat), cmd ≠ 255 → 1024 ≤ L → L ≤ 65535 →
      (parse_V1 pkt (255 :: cmd :: L % 256 :: L / 256 :: s)).1 = MspRet.outOfMemory) := by
  refine ⟨?_, ?_, ?_, ?_, ?_, ?_⟩
  · intro cmd payload h
    have hc : ¬ payload.length > 254 := by omega
    constructor
    · simp [send_V1, hc, List.getD]
    · simp [send_V1, hc]
  · intro cmd payload h hup
    have hc : payload.length > 254 := by omega
    constructor
    · simp [send_V1, hc, List.getD]
    · simp [send_V1, hc]
  · intro pkt f c0 c1 L s hL
    have h5 : mread 5 (f :: c0 :: c1 :: L % 256 :: L / 256 :: s) =
        some ([f, c0, c1, L % 256, L / 256], s) := by simp [mread]
    have hps : L % 256 + 256 * (L / 256) = L := by omega
    unfold parse_V2
    rw [h5]
    dsimp only [List.getD_cons_zero, List.getD_cons_succ]
    rw [hps, READ_BUFFER_SIZE]
    rw [if_neg (by omega)]
    intro h
    repeat' split at h
    all_goals simp at h
  · intro pkt f c0 c1 L s hL hup
    have h5 : mread 5 (f :: c0 :: c1 :: L % 256 :: L / 256 :: s) =
        some ([f, c0, c1, L % 256, L / 256], s) := by simp [mread]
    have hps : L % 256 + 256 * (L / 256) = L := by omega
    unfold parse_V2
    rw [h5]
    dsimp only [List.getD_cons_zero, List.getD_cons_succ]
    rw [hps, READ_BUFFER_SIZE]
    rw [if_pos (by omega)]
  · intro pkt cmd L s hcmd hL
    have h2 : mread 2 (255 :: cmd :: L % 256 :: L / 256 :: s) =
        some ([255, cmd], L % 256 :: L / 256 :: s) := by simp [mread]
    have h2b : mread 2 (L % 256 :: L / 256 :: s) =
        some ([L % 256, L / 256], s) := by simp [mread]
    have hps : L % 256 + 256 * (L / 256) = L := by omega
    unfold parse_V1
    rw [h2]
    dsimp only [List.getD_cons_zero, List.getD_cons_succ]
    rw [if_pos rfl, h2b]
    dsimp only [List.getD_cons_zero, List.getD_cons_succ]
    rw [hps]
    rw [if_neg hcmd, READ_BUFFER_SIZE]
    rw [if_neg (by omega)]
    intro h
    repeat' split at h
    all_goals simp at h
  · intro pkt cmd L s hcmd hL hup
    have h2 : mread 2 (255 :: cmd :: L % 256 :: L / 256 :: s) =
        some ([255, cmd], L % 256 :: L / 256 :: s) := by simp [mread]
    have h2b : mread 2 (L % 256 :: L / 256 :: s) =
        some ([L % 256, L / 256], s) := by simp [mread]
    have hps : L % 256 + 256 * (L / 256) = L := by omega
    unfold parse_V1
    rw [h2]
    dsimp only [List.getD_cons_zero, List.getD_cons_succ]
    rw [if_pos rfl, h2b]
    dsimp only [List.getD_cons_zero, List.getD_cons_succ]
    rw [hps]
    rw [if_neg hcmd, READ_BUFFER_SIZE]
    rw [if_pos (by omega)]

set_option maxRecDepth 4000 in
/-- Witness for C6 at payload lengths 254 and 255 and declared decode
sizes 1023 and 1024. -/
theorem c6_jumbo_boundary_witness :
    ((send_V1 1 (List.replicate 254 0)).getD 3 0 = 254 ∧
      (send_V1 1 (List.replicate 254 0)).length = 260) ∧
    ((send_V1 1 (List.replicate 255 0)).getD 3 0 = 255 ∧
      (send_V1 1 (List.replicate 255 0)).length = 263) ∧
    (parse_V2 mspResponse0 (0 :: 1 :: 0 :: 1023 % 256 :: 1023 / 256 :: [])).1 ≠
      MspRet.outOfMemory ∧
    (parse_V2 mspResponse0 (0 :: 1 :: 0 :: 1024 % 256 :: 1024 / 256 :: [])).1 =
      MspRet.outOfMemory ∧
    (parse_V1 mspResponse0 (255 :: 1 :: 1023 % 256 :: 1023 / 256 :: [])).1 ≠
      MspRet.outOfMemory ∧
    (parse_V1 mspResponse0 (255 :: 1 :: 1024 % 256 :: 1024 / 256 :: [])).1 =
      MspRet.outOfMemory :=
  ⟨⟨(c6_jumbo_boundary.1 1 (List.replicate 254 0) (by simp)).1,
    by rw [(c6_jumbo_boundary.1 1 (List.replicate 254 0) (by simp)).2]; simp⟩,
   ⟨(c6_jumbo_boundary.2.1 1 (List.replicate 255 0) (by simp) (by simp)).1,
    by rw [(c6_jumbo_boundary.2.1 1 (List.replicate 255 0) (by simp) (by simp)).2]; simp⟩,
   c6_jumbo_boundary.2.2.1 mspResponse0 0 1 0 1023 [] (by omega),
   c6_jumbo_boundary.2.2.2.1 mspResponse0 0 1 0 1024 [] (by omega) (by omega),
   c6_jumbo_boundary.2.2.2.2.1 mspResponse0 1 1023 [] (by omega) (by omega),
   c6_jumbo_boundary.2.2.2.2.2 mspResponse0 1 1024 [] (by omega) (by omega) (by omega)⟩

theorem parse_V2_preserves (pkt : MspPacket) (s : List Nat) :
    (parse_V2 pkt s).2.1.version = pkt.version ∧
    (parse_V2 pkt s).2.1.direction = pkt.direction := by
  unfold parse_V2
  dsimp only
  repeat' split
  all_goals exact ⟨rfl, rfl⟩

/-- Claim C9: a V2 packet tunneled in a V1 frame is returned with the
version character 77 (M) stored from the V1 wrapper header, while flag,
command, payload size, payload and checksum all come from the inner V2
frame; `parse_V2` itself never writes the version or direction
fields. -/
theorem c9_tunneled_v2_fields :
    (∀ (pkt : MspPacket) (s : List Nat),
      (parse_V2 pkt s).2.1.version = pkt.version ∧
      (parse_V2 pkt s).2.1.direction = pkt.direction) ∧
    (∀ (sz flag cmd : Nat) (payload rest : List Nat) (t : Nat) (pkt0 : MspPacket),
      sz ≠ 255 → cmd < 65536 → payload.length ≤ 1023 →
      parse_packet pkt0
        (36 :: 77 :: 62 :: sz :: 255 :: (mkV2Inner flag cmd payload ++ t :: rest)) =
        (MspRet.ok,
         { pkt0 with version := 77, direction := 62, flag := flag, function := cmd,
                     payload_size := payload.length, payload := payload,
                     checksum := checksum_crc8_dvb_s2 payload
                       (checksum_crc8_dvb_s2 (v2hdr5 flag cmd payload.length) 0) },
         t :: rest)) := by
  constructor
  · exact parse_V2_preserves
  · intro sz flag cmd payload rest t pkt0 hsz hcmd hlen
    unfold parse_packet
    rw [show get_sync (36 :: 77 :: 62 :: sz :: 255 :: (mkV2Inner flag cmd payload ++ t :: rest)) =
        (MspRet.ok, 77 :: 62 :: sz :: 255 :: (mkV2Inner flag cmd payload ++ t :: rest)) from
      get_sync_fuel_found 49 _]
    dsimp only
    rw [show mread 2 (77 :: 62 :: sz :: 255 :: (mkV2Inner flag cmd payload ++ t :: rest)) =
        some ([77, 62], sz :: 255 :: (mkV2Inner flag cmd payload ++ t :: rest)) by simp [mread]]
    dsimp only [List.getD_cons_zero, List.getD_cons_succ]
    rw [if_pos rfl]
    rw [parse_V1_tunnel _ sz flag cmd payload t rest hsz hlen hcmd]
    simp [nack_map]

/-- Witness for C9 at size byte 10, flag 7, command 260, payload [1, 2],
trailing byte 171. -/
theorem c9_tunneled_v2_fields_witness :
    parse_packet mspResponse0
        (36 :: 77 :: 62 :: 10 :: 255 :: (mkV2Inner 7 260 [1, 2] ++ 171 :: [])) =
      (MspRet.ok,
       { mspResponse0 with version := 77, direction := 62, flag := 7, function := 260,
                           payload_size := 2, payload := [1, 2],
                           checksum := checksum_crc8_dvb_s2 [1, 2]
                             (checksum_crc8_dvb_s2 (v2hdr5 7 260 2) 0) },
       [171]) :=
  c9_tunneled_v2_fields.2 10 7 260 [1, 2] [] 171 mspResponse0 (by decide) (by decide) (by decide)

/-- Claim C10: the device-handle invariant, established at module
initialization and preserved by the modelled state effects of open,
close, get and set; under it, the internal-bug default branch of the
version dispatch in get and set is unreachable while the device is
open. -/
theorem c10_device_invariant :
    devInv initDev ∧
    (∀ (d : MspDev) (r v : Option Int) (osOk : Bool),
      devInv d → devInv (pyMsplinkOpen d r v osOk)) ∧
    (∀ d : MspDev, devInv d → devInv (pyMsplinkClose d)) ∧
    (∀ d : MspDev, (pyMsplinkGet d).1 = d ∧ (pyMsplinkSet d).1 = d) ∧
    (∀ d : MspDev, devInv d → d.device_open = true →
      (pyMsplinkGet d).2 ≠ DispatchPath.internalBug ∧
      (pyMsplinkSet d).2 ≠ DispatchPath.internalBug) := by
  refine ⟨?_, ?_, ?_, ?_, ?_⟩
  · intro h
    exact absurd h (by decide)
  · intro d r v osOk hd
    unfold pyMsplinkOpen
    by_cases h1 : d.device_open = true
    · rw [if_pos h1]
      exact hd
    · rw [if_neg h1]
      dsimp only
      split
      · intro hopen
        exact absurd hopen h1
      · split
        · intro hopen
          exact absurd hopen h1
        · rename_i h2 h3
          split
          · intro _
            dsimp only
            constructor
            · omega
            · omega
          · intro hopen
            exact absurd hopen h1
  · intro d _ hopen
    exact absurd hopen (by simp [pyMsplinkClose])
  · intro d
    exact ⟨rfl, rfl⟩
  · intro d hd hopen
    have hv := (hd hopen).1
    constructor
    · rcases hv with h | h <;> simp [pyMsplinkGet, hopen, h]
    · rcases hv with h | h <;> simp [pyMsplinkSet, hopen, h]

/-- Witness for C10: a successful open of the initial device with
retries 5 and version 2 keeps the invariant, get and set leave it
unchanged, and the internal-bug branch is unreachable on it; close
preserves the invariant too. -/
theorem c10_device_invariant_witness :
    devInv (pyMsplinkOpen initDev (some 5) (some 2) true) ∧
    devInv (pyMsplinkClose initDev) ∧
    (pyMsplinkGet (pyMsplinkOpen initDev (some 5) (some 2) true)).1 =
      pyMsplinkOpen initDev (some 5) (some 2) true ∧
    (pyMsplinkGet (pyMsplinkOpen initDev (some 5) (some 2) true)).2 ≠
      DispatchPath.internalBug :=
  ⟨c10_device_invariant.2.1 initDev (some 5) (some 2) true c10_device_invariant.1,
   c10_device_invariant.2.2.1 initDev c10_device_invariant.1,
   (c10_device_invariant.2.2.2.1 (pyMsplinkOpen initDev (some 5) (some 2) true)).1,
   (c10_device_invariant.2.2.2.2 (pyMsplinkOpen initDev (some 5) (some 2) true)
      (c10_device_invariant.2.1 initDev (some 5) (some 2) true c10_device_invariant.1)
      (by decide)).1⟩
